import Mathlib

/-!
Verification of the sentinel-system issue lifecycle engine.

This file shallowly embeds the relevant parts of the Python source:
  - `services/issue_processor.py` (the lifecycle engine `process_issue`,
    `_analyze_and_propose`, `_implement_approved_solution`),
  - `services/scheduler_service.py` (`_process_ready_issues`, `_add_log`,
    `SchedulerService.__init__`, `get_status`),
  - `services/github_service.py` (`remove_label` HTTP status handling),
  - `routers/scheduler.py` (each endpoint constructs a fresh service),
  - `config.py` (the settings record with its defaults).

Gateway calls are recorded as a trace; the effect of label operations on the
tracker's label set is given by `applyCall`/`finalLabels`.  External
collaborators (the assistant, the VCS working copy, HTTP responses) are
supplied as explicit environment data, since the source treats them as opaque.
-/

namespace Sentinel

/-- The settings record from `config.py`, restricted to the fields the
lifecycle engine and scheduler read.  `branchStem` embeds the source field
GIT_BRANCH_PREFIX and `commitStem` embeds GIT_COMMIT_PREFIX (renamed here). -/
structure Settings where
  issueLabel : String
  proposalLabel : String
  approvedLabel : String
  workingLabel : String
  branchStem : String
  commitStem : String
  SCHEDULER_ENABLED : Bool
  SCHEDULER_INTERVAL_MINUTES : Nat
deriving Repr, DecidableEq

/-- The default values declared in `config.py`. -/
def defaultSettings : Settings where
  issueLabel := "ai-ready"
  proposalLabel := "ai-proposal-pending"
  approvedLabel := "ai-approved"
  workingLabel := "ai-working"
  branchStem := "sentinel/issue-"
  commitStem := "feat: "
  SCHEDULER_ENABLED := false
  SCHEDULER_INTERVAL_MINUTES := 10

/-- An issue as the engine sees it after `get_issue`: number, title, body and
the list of label names extracted from the payload. -/
structure Issue where
  number : Nat
  title : String
  body : String
  labels : List String
deriving Repr, DecidableEq

/-- One gateway call made during a run, recorded in order.  These mirror the
methods of GitHubService, GitService and GeminiService that
`issue_processor.py` invokes. -/
inductive Call where
  | getIssue (n : Nat)
  | addLabel (n : Nat) (label : String)
  | removeLabel (n : Nat) (label : String)
  | addComment (n : Nat) (text : String)
  | createPullRequest (title body head base : String)
  | createBranch (name : String)
  | hasChanges
  | commitChanges (message : String)
  | pushBranch (name : String)
  | geminiAnalyze (title body : String) (n : Nat)
  | geminiImplement (title body proposal : String) (n : Nat)
deriving Repr, DecidableEq

/-- Responses of the external collaborators during one run: the assistant's
proposal and implementation texts, whether the working copy reports pending
changes, the URL GitHub assigns to a created PR, and the timestamp string
`datetime.now().strftime(...)` interpolated into comments. -/
structure Env where
  proposal : String
  implementation : String
  hasChanges : Bool
  prUrl : String
  now : String
deriving Repr, DecidableEq

/-- Terminal outcome of one `process_issue` run, from the status fields of the
returned dictionaries (`already_processing`, `proposal_created`,
`implemented`, `no_changes`) plus a re-raised exception. -/
inductive Outcome where
  | alreadyProcessing
  | proposalCreated (proposal : String)
  | implemented (prUrl branch : String)
  | noChanges (implementation : String)
  | raised (msg : String)
deriving Repr, DecidableEq

/-- Result of one run: its outcome and the ordered trace of gateway calls. -/
structure RunResult where
  outcome : Outcome
  calls : List Call
deriving Repr, DecidableEq

/-- The behaviour of the action phase (step 4): either it returns a result
after a trace of calls, or it raises after a partial trace. -/
inductive ActionOutcome where
  | ok (tr : List Call) (result : Outcome)
  | fail (tr : List Call) (msg : String)
deriving Repr, DecidableEq

/-- The proposal comment template of `_analyze_and_propose`. -/
def proposalComment (s : Settings) (n : Nat) (proposal now : String) : String :=
  "🤖 **Sentinel System - Issue Analysis & Proposal**\n\n## My Understanding\nI've analyzed issue #"
    ++ Nat.repr n ++ " and here's my assessment:\n\n" ++ proposal
    ++ "\n\n---\n\n**Next Steps:**\n- 👍 If you approve this proposal, add the `"
    ++ s.approvedLabel ++ "` label\n- 👎 If you want changes, remove the `"
    ++ s.proposalLabel ++ "` label and add feedback\n- 🔄 I'll refine the proposal based on your feedback\n\n*Generated at "
    ++ now ++ " UTC*\n"

/-- The fixed opening of the error comment template, by which an error
comment is distinguishable from the other comment templates. -/
def errorCommentMarker : String := "🚨 **Sentinel System - Processing Error**"

/-- The error comment template of `process_issue`'s exception handler. -/
def errorComment (msg : String) : String :=
  errorCommentMarker
    ++ ("\n\nAn error occurred while processing this issue:\n\n```\n"
          ++ msg ++ "\n```\n\nPlease check the system logs for more details.")

/-- The completion comment template of `_implement_approved_solution`. -/
def completionComment (implementation prUrl now : String) : String :=
  "✅ **Sentinel System - Implementation Complete**\n\n## Solution Implemented\n\n"
    ++ implementation ++ "\n\n## Pull Request Created\n🔗 **Pull Request:** "
    ++ prUrl
    ++ "\n\nThe solution has been implemented and is ready for review. The PR contains all necessary changes to resolve this issue.\n\n*Completed at "
    ++ now ++ " UTC*\n"

/-- The no-changes comment template of `_implement_approved_solution`. -/
def noChangesComment (implementation now : String) : String :=
  "ℹ️ **Sentinel System - No Changes Required**\n\nAfter analyzing the issue and attempting implementation, no code changes were required. This might mean:\n\n- The issue was already resolved\n- The solution doesn't require code changes\n- The issue needs clarification\n\n"
    ++ implementation ++ "\n\n*Completed at " ++ now ++ " UTC*\n"

/-- PR title built in `_implement_approved_solution`. -/
def prTitle (n : Nat) (title : String) : String :=
  "Fix issue #" ++ Nat.repr n ++ ": " ++ title

/-- PR body built in `_implement_approved_solution`; it references the issue
with a leading "Resolves #N". -/
def prBody (n : Nat) (implementation : String) : String :=
  "Resolves #" ++ Nat.repr n ++ "\n\n## Implementation Summary\n\n"
    ++ implementation
    ++ "\n\n## Changes Made\n- Implemented solution as approved in issue #"
    ++ Nat.repr n
    ++ "\n- All changes are focused on resolving the specific issue\n\n**Auto-generated by Sentinel System**\n"

/-- Commit message built in `_implement_approved_solution`. -/
def commitMessage (s : Settings) (n : Nat) (title : String) : String :=
  s.commitStem ++ "resolve issue #" ++ Nat.repr n ++ ": " ++ title

/-- `IssueProcessor._analyze_and_propose`: ask the assistant, post the
proposal comment, add the proposal-pending label, remove the ready label. -/
def analyze_and_propose (s : Settings) (n : Nat) (title body : String)
    (env : Env) : List Call × Outcome :=
  ([Call.geminiAnalyze title body n,
    Call.addComment n (proposalComment s n env.proposal env.now),
    Call.addLabel n s.proposalLabel,
    Call.removeLabel n s.issueLabel],
   Outcome.proposalCreated env.proposal)

/-- `IssueProcessor._implement_approved_solution`: create the branch, ask the
assistant, inspect the working copy; when changes exist commit once, push,
open one PR, post the completion comment, remove the approved label; when no
changes exist post the no-changes comment and remove the approved label. -/
def implement_approved_solution (s : Settings) (n : Nat) (title body : String)
    (env : Env) : List Call × Outcome :=
  let branch := s.branchStem ++ Nat.repr n
  let pre := [Call.createBranch branch,
              Call.geminiImplement title body "Approved proposal from previous analysis" n,
              Call.hasChanges]
  if env.hasChanges then
    (pre ++ [Call.commitChanges (commitMessage s n title),
             Call.pushBranch branch,
             Call.createPullRequest (prTitle n title) (prBody n env.implementation) branch "main",
             Call.addComment n (completionComment env.implementation env.prUrl env.now),
             Call.removeLabel n s.approvedLabel],
     Outcome.implemented env.prUrl branch)
  else
    (pre ++ [Call.addComment n (noChangesComment env.implementation env.now),
             Call.removeLabel n s.approvedLabel],
     Outcome.noChanges env.implementation)

/-- The branch of `process_issue` on line 58: implementation phase when the
approved label is present, otherwise analysis-and-proposal phase. -/
def dispatch_action (s : Settings) (issue : Issue) (env : Env) :
    List Call × Outcome :=
  if s.approvedLabel ∈ issue.labels then
    implement_approved_solution s issue.number issue.title issue.body env
  else
    analyze_and_propose s issue.number issue.title issue.body env

/-- `IssueProcessor.process_issue`, with the action phase's behaviour passed
in: fetch the issue; if the working label is already present return
`already_processing`; otherwise add the working label, run the action, and on
success remove the working label; on failure remove the working label, post
the error comment, and re-raise. -/
def process_issue (s : Settings) (n : Nat) (labels : List String)
    (action : ActionOutcome) : RunResult :=
  if s.workingLabel ∈ labels then
    { outcome := Outcome.alreadyProcessing, calls := [Call.getIssue n] }
  else
    match action with
    | ActionOutcome.ok tr res =>
        { outcome := res,
          calls := Call.getIssue n :: Call.addLabel n s.workingLabel :: tr
                     ++ [Call.removeLabel n s.workingLabel] }
    | ActionOutcome.fail tr msg =>
        { outcome := Outcome.raised msg,
          calls := Call.getIssue n :: Call.addLabel n s.workingLabel :: tr
                     ++ [Call.removeLabel n s.workingLabel,
                         Call.addComment n (errorComment msg)] }

/-- One full `process_issue` run in which every gateway call succeeds, the
action phase being the real dispatch of line 58. -/
def process_issue_run (s : Settings) (issue : Issue) (env : Env) : RunResult :=
  process_issue s issue.number issue.labels
    (ActionOutcome.ok (dispatch_action s issue env).1 (dispatch_action s issue env).2)

/-- Effect of one gateway call on the tracker's label set for the processed
issue.  Adding a label is idempotent (GitHub keeps a set); removing a label
deletes every occurrence; other calls do not touch labels. -/
def applyCall (labels : List String) : Call → List String
  | Call.addLabel _ l => if l ∈ labels then labels else labels ++ [l]
  | Call.removeLabel _ l => labels.filter (fun x => decide (x ≠ l))
  | _ => labels

/-- Tracker label set after a trace of calls. -/
def finalLabels (labels : List String) (calls : List Call) : List String :=
  calls.foldl applyCall labels

/-- Whether a call posts the error comment of `process_issue`'s handler
(recognised by the template's fixed opening). -/
def isErrorComment : Call → Bool
  | Call.addComment _ t => errorCommentMarker.data.isPrefixOf t.data
  | _ => false

/-- Whether a call posts any comment. -/
def isAddComment : Call → Bool
  | Call.addComment _ _ => true
  | _ => false

/-- Whether a call opens a pull request. -/
def isCreatePR : Call → Bool
  | Call.createPullRequest _ _ _ _ => true
  | _ => false

/-- Whether a call is a commit. -/
def isCommit : Call → Bool
  | Call.commitChanges _ => true
  | _ => false

/-! ## Scheduler sweep (`SchedulerService._process_ready_issues`) -/

/-- `per_page` sent by `GitHubService.get_issues`: `min(limit, 100)`. -/
def per_page (limit : Nat) : Nat := min limit 100

/-- The page size `_process_ready_issues` requests for each of its two
listing calls. -/
def sweepLimit : Nat := 50

/-- The `for issue in all_issues` loop of `_process_ready_issues`: skip an
issue whose labels already contain the working label, otherwise dispatch
`process_issue` for it.  Returns the dispatched issue numbers in order. -/
def sweepLoop (s : Settings) : List Issue → List Nat
  | [] => []
  | issue :: rest =>
      if s.workingLabel ∈ issue.labels then sweepLoop s rest
      else issue.number :: sweepLoop s rest

/-- `_process_ready_issues`: list ready-labelled issues and approved-labelled
issues (two gateway calls whose results are the two arguments), concatenate
them, and run the dispatch loop. -/
def process_ready_issues (s : Settings) (readyIssues approvedIssues : List Issue) :
    List Nat :=
  sweepLoop s (readyIssues ++ approvedIssues)

/-! ## Run log (`SchedulerService._add_log`) -/

/-- One run-log entry: timestamp, level, message, structured data. -/
structure LogEntry where
  timestamp : Nat
  level : String
  message : String
  data : List (String × String)
deriving Repr, DecidableEq

/-- `self.max_logs = 100` from `SchedulerService.__init__`. -/
def max_logs : Nat := 100

/-- `SchedulerService._add_log`: append the entry, then when the length
exceeds `max_logs` keep only the last `max_logs` entries
(`self.logs = self.logs[-self.max_logs:]`). -/
def add_log (logs : List LogEntry) (e : LogEntry) : List LogEntry :=
  let appended := logs ++ [e]
  if max_logs < appended.length then
    appended.drop (appended.length - max_logs)
  else appended

/-! ## Gateway label removal (`GitHubService.remove_label`) -/

/-- `httpx.Response.raise_for_status`: raises exactly on 4xx/5xx codes. -/
def raise_for_status (status : Nat) : Except String Unit :=
  if 400 ≤ status ∧ status < 600 then
    Except.error ("GitHub API error: " ++ Nat.repr status)
  else Except.ok ()

/-- `GitHubService.remove_label`'s handling of the DELETE response: statuses
200, 204 and 404 are accepted (404 meaning the label was absent); any other
status goes through `raise_for_status`. -/
def remove_label_response (status : Nat) : Except String Unit :=
  if status = 200 ∨ status = 204 ∨ status = 404 then Except.ok ()
  else raise_for_status status

/-- Modelled from the spec: the tracker's delete-label endpoint (external to
this repository).  GitHub answers 200 when the label was present and removed,
and 404 when the label is absent from the issue. -/
def githubDeleteLabelStatus (labels : List String) (label : String) : Nat :=
  if label ∈ labels then 200 else 404

/-! ## Scheduler service state and HTTP endpoints (`routers/scheduler.py`) -/

/-- The `stats` dictionary initialised in `SchedulerService.__init__`. -/
structure SchedulerStats where
  total_runs : Nat
  issues_processed : Nat
  last_run : Option Nat
  next_run : Option Nat
  enabled : Bool
  interval_minutes : Nat
deriving Repr, DecidableEq

/-- The mutable state of one `SchedulerService` instance. -/
structure SchedulerService where
  is_running : Bool
  stats : SchedulerStats
  logs : List LogEntry
deriving Repr, DecidableEq

/-- `SchedulerService.__init__`: not running, zero counters, no run
timestamps, enabled flag and interval taken from settings, empty log. -/
def SchedulerService.init (s : Settings) : SchedulerService where
  is_running := false
  stats :=
    { total_runs := 0
      issues_processed := 0
      last_run := none
      next_run := none
      enabled := s.SCHEDULER_ENABLED
      interval_minutes := s.SCHEDULER_INTERVAL_MINUTES }
  logs := []

/-- The body of the `/status` response (`SchedulerService.get_status`). -/
structure StatusResponse where
  enabled : Bool
  running : Bool
  interval_minutes : Nat
  last_run : Option Nat
  next_run : Option Nat
  total_runs : Nat
  issues_processed : Nat
deriving Repr, DecidableEq

/-- `SchedulerService.get_status`. -/
def SchedulerService.get_status (svc : SchedulerService) : StatusResponse where
  enabled := svc.stats.enabled
  running := svc.is_running
  interval_minutes := svc.stats.interval_minutes
  last_run := svc.stats.last_run
  next_run := svc.stats.next_run
  total_runs := svc.stats.total_runs
  issues_processed := svc.stats.issues_processed

/-- `SchedulerService.start`: refuse when already running, otherwise set the
running and enabled flags (the spawned loop task is external behaviour). -/
def SchedulerService.start (svc : SchedulerService) : SchedulerService × Bool :=
  if svc.is_running then (svc, false)
  else ({ svc with is_running := true,
                   stats := { svc.stats with enabled := true } }, true)

/-- The requests the scheduler router accepts. -/
inductive Request where
  | status
  | start
  | stop
  | runNow
  | config (enabled : Bool) (interval_minutes : Nat)
  | logs (limit : Nat)
deriving Repr, DecidableEq

/-- What a handler sends back, as far as the claims need: either a status
body or an acknowledgement. -/
inductive Response where
  | statusBody (r : StatusResponse)
  | ack
deriving Repr, DecidableEq

/-- One request handled by `routers/scheduler.py`: every handler constructs a
brand-new `SchedulerService()` and the mutated instance is dropped when the
handler returns, so no state flows from one request to the next. -/
def handle (s : Settings) : Request → Response
  | Request.status => Response.statusBody (SchedulerService.get_status (SchedulerService.init s))
  | Request.start => Response.ack
  | Request.stop => Response.ack
  | Request.runNow => Response.ack
  | Request.config _ _ => Response.ack
  | Request.logs _ => Response.ack

/-- A whole server run: the responses to a sequence of requests.  The router
keeps no state between requests, which the element-wise map makes explicit. -/
def serverRun (s : Settings) (reqs : List Request) : List Response :=
  reqs.map (handle s)

/-! ## Interleaving of two concurrent dispatches for the same issue

Each run reads the tracker exactly once (the `get_issue` fetch) and then only
writes; its behaviour is a function of that snapshot.  So all interleavings
of two runs A and B are captured by the position `k` of B's fetch among A's
calls: B's snapshot is the shared label set after the first `k` calls of A. -/

/-- The label set run B's fetch observes when it happens after the first `k`
calls of run A (A started from the tracker state `issue.labels`). -/
def interleavedSnapshot (s : Settings) (issue : Issue) (env : Env) (k : Nat) :
    List String :=
  finalLabels issue.labels ((process_issue_run s issue env).calls.take k)

/-- Outcome of the second concurrent dispatch B, whose fetch lands after the
first `k` calls of run A. -/
def secondDispatchOutcome (s : Settings) (issue : Issue) (env envB : Env)
    (k : Nat) : Outcome :=
  (process_issue_run s { issue with labels := interleavedSnapshot s issue env k } envB).outcome

/-! ## Helper lemmas -/

/-- The dispatch loop keeps exactly the issues without the working label, in
order, and dispatches their numbers. -/
theorem sweepLoop_eq_filter (s : Settings) (l : List Issue) :
    sweepLoop s l
      = (l.filter (fun i => decide (s.workingLabel ∉ i.labels))).map Issue.number := by
  induction l with
  | nil => rfl
  | cons issue rest ih =>
      by_cases h : s.workingLabel ∈ issue.labels
      · simp [sweepLoop, h, ih]
      · simp [sweepLoop, h, ih]

/-- `add_log` is one `drop` of the appended list. -/
theorem add_log_eq_drop (logs : List LogEntry) (e : LogEntry) :
    add_log logs e = (logs ++ [e]).drop (logs.length + 1 - max_logs) := by
  unfold add_log
  simp only [List.length_append, List.length_singleton]
  by_cases hc : max_logs < logs.length + 1
  · rw [if_pos hc]
  · rw [if_neg hc]
    have hlen : logs.length + 1 - max_logs = 0 := by omega
    rw [hlen, List.drop_zero]

/-! ## Claims -/

/-- C9: the run log is capacity-bounded and insertion-ordered: after every
`_add_log` the length is at most `max_logs` (= 100), the result is a suffix
of the previous log with the new entry appended (so the surviving entries
keep their insertion order and only the oldest are evicted), and it equals
exactly the appended list with its oldest overflow dropped. -/
theorem run_log_capacity_bound (logs : List LogEntry) (e : LogEntry) :
    (add_log logs e).length ≤ max_logs
      ∧ (add_log logs e).IsSuffix (logs ++ [e])
      ∧ add_log logs e = (logs ++ [e]).drop (logs.length + 1 - max_logs) := by
  have h := add_log_eq_drop logs e
  refine ⟨?_, ?_, h⟩
  · rw [h, List.length_drop, List.length_append, List.length_singleton]
    have : 0 < max_logs := by decide
    omega
  · rw [h]
    exact List.drop_suffix _ _

/-- C5: the sweep concatenates the ready-labelled and approved-labelled
listings (each requested with page size `min 50 100 = 50`) and dispatches
exactly the issues whose labels do not contain the working label, in order;
in the concrete scenario of 3 ready issues and 2 approved issues of which
one also carries the working label, exactly 4 runs are dispatched. -/
theorem sweep_dispatch_filter :
    (∀ (s : Settings) (readyIssues approvedIssues : List Issue),
        process_ready_issues s readyIssues approvedIssues
          = ((readyIssues ++ approvedIssues).filter
                (fun i => decide (s.workingLabel ∉ i.labels))).map Issue.number)
      ∧ per_page sweepLimit = 50
      ∧ process_ready_issues defaultSettings
          [⟨1, "a", "", ["ai-ready"]⟩, ⟨2, "b", "", ["ai-ready"]⟩,
           ⟨3, "c", "", ["ai-ready"]⟩]
          [⟨4, "d", "", ["ai-approved"]⟩,
           ⟨5, "e", "", ["ai-approved", "ai-working"]⟩]
          = [1, 2, 3, 4] := by
  refine ⟨?_, rfl, by decide⟩
  intro s readyIssues approvedIssues
  exact sweepLoop_eq_filter s (readyIssues ++ approvedIssues)

/-- C10: every scheduler endpoint handles its request on a brand-new
`SchedulerService`, so no earlier request can influence a later one: after an
arbitrary sequence of prior requests (start, stop, run-now, config, ...), the
status endpoint still answers with the freshly initialised values —
running = false, total_runs = 0, issues_processed = 0, last_run = none. -/
theorem endpoints_fresh_state_status (s : Settings) (prior : List Request) :
    serverRun s (prior ++ [Request.status])
      = serverRun s prior
          ++ [Response.statusBody
                { enabled := s.SCHEDULER_ENABLED
                  running := false
                  interval_minutes := s.SCHEDULER_INTERVAL_MINUTES
                  last_run := none
                  next_run := none
                  total_runs := 0
                  issues_processed := 0 }] := by
  simp [serverRun, handle, SchedulerService.init, SchedulerService.get_status]

/-- C8: `remove_label` is idempotent at the gateway boundary: deleting a
label that is absent from the issue yields a 404, which the service accepts
without raising; any other HTTP failure status still raises. -/
theorem remove_label_idempotent (labels : List String) (label : String)
    (status : Nat) :
    (label ∉ labels →
        remove_label_response (githubDeleteLabelStatus labels label) = Except.ok ())
      ∧ (400 ≤ status → status < 600 → status ≠ 404 →
          remove_label_response status
            = Except.error ("GitHub API error: " ++ Nat.repr status)) := by
  constructor
  · intro h
    simp [githubDeleteLabelStatus, h, remove_label_response]
  · intro h1 h2 h3
    unfold remove_label_response raise_for_status
    rw [if_neg (by omega), if_pos ⟨h1, h2⟩]

/-- Witness for C8: label "ai-working" absent from the label set ["bug"] is
removed without error, and a 500 response raises. -/
theorem remove_label_idempotent_witness :
    remove_label_response (githubDeleteLabelStatus ["bug"] "ai-working") = Except.ok ()
      ∧ remove_label_response 500
          = Except.error ("GitHub API error: " ++ Nat.repr 500) :=
  ⟨(remove_label_idempotent ["bug"] "ai-working" 500).1 (by decide),
   (remove_label_idempotent ["bug"] "ai-working" 500).2 (by decide) (by decide) (by decide)⟩

/-- The error comment itself is recognised as an error comment. -/
theorem isErrorComment_errorComment (n : Nat) (msg : String) :
    isErrorComment (Call.addComment n (errorComment msg)) = true := by
  simp [isErrorComment, errorComment, List.isPrefixOf_iff_prefix]

/-- C4: once a run is past the skip guard, the working label is removed on
every exit path: on the success path it is removed and absent from the final
label set, and on any failure inside the action phase it is removed, exactly
one explanatory error comment is posted (provided the action's own partial
trace posted none), and the failure is re-raised as the run's outcome. -/
theorem working_label_cleared_on_all_paths (s : Settings) (n : Nat)
    (labels : List String) (tr : List Call) (msg : String) (res : Outcome)
    (h : s.workingLabel ∉ labels) :
    (Call.removeLabel n s.workingLabel
        ∈ (process_issue s n labels (ActionOutcome.ok tr res)).calls
      ∧ s.workingLabel
          ∉ finalLabels labels (process_issue s n labels (ActionOutcome.ok tr res)).calls)
    ∧ ((process_issue s n labels (ActionOutcome.fail tr msg)).outcome = Outcome.raised msg
      ∧ Call.removeLabel n s.workingLabel
          ∈ (process_issue s n labels (ActionOutcome.fail tr msg)).calls
      ∧ s.workingLabel
          ∉ finalLabels labels (process_issue s n labels (ActionOutcome.fail tr msg)).calls
      ∧ ((tr.filter isErrorComment).length = 0 →
          ((process_issue s n labels (ActionOutcome.fail tr msg)).calls.filter
              isErrorComment).length = 1)) := by
  simp only [process_issue, if_neg h]
  refine ⟨⟨?_, ?_⟩, by trivial, ?_, ?_, ?_⟩
  · simp
  · simp [finalLabels, List.foldl_append, applyCall, List.mem_filter]
  · simp
  · simp [finalLabels, List.foldl_append, applyCall, List.mem_filter]
  · intro h0
    have h1 : tr.filter isErrorComment = [] := List.length_eq_zero.mp h0
    simp [List.filter_append, h1, isErrorComment, errorComment,
      List.isPrefixOf_iff_prefix]

/-- Witness for C4 at issue 42, initial label set ["ai-ready"], empty action
trace, message "boom". -/
theorem working_label_cleared_on_all_paths_witness :
    (Call.removeLabel 42 defaultSettings.workingLabel
        ∈ (process_issue defaultSettings 42 ["ai-ready"]
            (ActionOutcome.ok [] (Outcome.proposalCreated "P"))).calls
      ∧ defaultSettings.workingLabel
          ∉ finalLabels ["ai-ready"]
              (process_issue defaultSettings 42 ["ai-ready"]
                (ActionOutcome.ok [] (Outcome.proposalCreated "P"))).calls)
    ∧ ((process_issue defaultSettings 42 ["ai-ready"]
          (ActionOutcome.fail [] "boom")).outcome = Outcome.raised "boom"
      ∧ Call.removeLabel 42 defaultSettings.workingLabel
          ∈ (process_issue defaultSettings 42 ["ai-ready"]
              (ActionOutcome.fail [] "boom")).calls
      ∧ defaultSettings.workingLabel
          ∉ finalLabels ["ai-ready"]
              (process_issue defaultSettings 42 ["ai-ready"]
                (ActionOutcome.fail [] "boom")).calls
      ∧ (((List.nil : List Call).filter isErrorComment).length = 0 →
          ((process_issue defaultSettings 42 ["ai-ready"]
              (ActionOutcome.fail [] "boom")).calls.filter isErrorComment).length = 1)) :=
  working_label_cleared_on_all_paths defaultSettings 42 ["ai-ready"] [] "boom"
    (Outcome.proposalCreated "P") (by decide)

/-- The proposal comment contains the proposal text. -/
theorem proposalComment_contains (s : Settings) (n : Nat) (p now : String) :
    ∃ pre post, proposalComment s n p now = pre ++ (p ++ post) :=
  ⟨"🤖 **Sentinel System - Issue Analysis & Proposal**\n\n## My Understanding\nI've analyzed issue #"
      ++ Nat.repr n ++ " and here's my assessment:\n\n",
   "\n\n---\n\n**Next Steps:**\n- 👍 If you approve this proposal, add the `"
      ++ s.approvedLabel ++ "` label\n- 👎 If you want changes, remove the `"
      ++ s.proposalLabel
      ++ "` label and add feedback\n- 🔄 I'll refine the proposal based on your feedback\n\n*Generated at "
      ++ now ++ " UTC*\n",
   by simp [proposalComment, String.append_assoc]⟩

/-- The completion comment contains the PR link. -/
theorem completionComment_contains (implementation prUrl now : String) :
    ∃ pre post, completionComment implementation prUrl now = pre ++ (prUrl ++ post) :=
  ⟨"✅ **Sentinel System - Implementation Complete**\n\n## Solution Implemented\n\n"
      ++ implementation ++ "\n\n## Pull Request Created\n🔗 **Pull Request:** ",
   "\n\nThe solution has been implemented and is ready for review. The PR contains all necessary changes to resolve this issue.\n\n*Completed at "
      ++ now ++ " UTC*\n",
   by simp [completionComment, String.append_assoc]⟩

/-- The PR body references the issue: it opens with "Resolves #N". -/
theorem prBody_references_issue (n : Nat) (implementation : String) :
    ∃ rest, prBody n implementation = "Resolves #" ++ (Nat.repr n ++ rest) :=
  ⟨"\n\n## Implementation Summary\n\n" ++ implementation
      ++ "\n\n## Changes Made\n- Implemented solution as approved in issue #"
      ++ Nat.repr n
      ++ "\n- All changes are focused on resolving the specific issue\n\n**Auto-generated by Sentinel System**\n",
   by simp [prBody, String.append_assoc]⟩

/-- C6: on an issue in state Ready (ready label present, none of the other
marker labels), `process` performs the Propose action: it returns the
`proposal_created` outcome with the assistant's proposal, posts exactly one
comment — the proposal comment, which contains the proposal text — adds the
proposal-pending label, removes the ready label, opens no pull request, and
when the issue started with label set exactly [ready], ends with label set
exactly [proposal-pending]. -/
theorem ready_propose_transition (s : Settings) (n : Nat) (t b : String)
    (labels : List String) (env : Env)
    (hr : s.issueLabel ∈ labels) (hp : s.proposalLabel ∉ labels)
    (ha : s.approvedLabel ∉ labels) (hw : s.workingLabel ∉ labels)
    (hpw : s.proposalLabel ≠ s.workingLabel) :
    (process_issue_run s ⟨n, t, b, labels⟩ env).outcome
        = Outcome.proposalCreated env.proposal
      ∧ ((process_issue_run s ⟨n, t, b, labels⟩ env).calls.filter isAddComment).length = 1
      ∧ Call.addComment n (proposalComment s n env.proposal env.now)
          ∈ (process_issue_run s ⟨n, t, b, labels⟩ env).calls
      ∧ (∃ pre post,
          proposalComment s n env.proposal env.now = pre ++ (env.proposal ++ post))
      ∧ Call.addLabel n s.proposalLabel ∈ (process_issue_run s ⟨n, t, b, labels⟩ env).calls
      ∧ Call.removeLabel n s.issueLabel ∈ (process_issue_run s ⟨n, t, b, labels⟩ env).calls
      ∧ ((process_issue_run s ⟨n, t, b, labels⟩ env).calls.filter isCreatePR).length = 0
      ∧ (labels = [s.issueLabel] →
          finalLabels labels (process_issue_run s ⟨n, t, b, labels⟩ env).calls
            = [s.proposalLabel]) := by
  have hcalls : (process_issue_run s ⟨n, t, b, labels⟩ env).calls
      = [Call.getIssue n, Call.addLabel n s.workingLabel,
         Call.geminiAnalyze t b n,
         Call.addComment n (proposalComment s n env.proposal env.now),
         Call.addLabel n s.proposalLabel, Call.removeLabel n s.issueLabel,
         Call.removeLabel n s.workingLabel] := by
    simp [process_issue_run, dispatch_action, ha, analyze_and_propose,
      process_issue, hw]
  have houtcome : (process_issue_run s ⟨n, t, b, labels⟩ env).outcome
      = Outcome.proposalCreated env.proposal := by
    simp [process_issue_run, dispatch_action, ha, analyze_and_propose,
      process_issue, hw]
  refine ⟨houtcome, ?_, ?_, proposalComment_contains s n env.proposal env.now,
    ?_, ?_, ?_, ?_⟩
  · rw [hcalls]; simp [isAddComment]
  · rw [hcalls]; simp
  · rw [hcalls]; simp
  · rw [hcalls]; simp
  · rw [hcalls]; simp [isCreatePR]
  · intro hlab
    subst hlab
    simp only [List.mem_singleton] at hw hp
    rw [hcalls]
    simp [finalLabels, applyCall, hw, hp, hpw]

/-- Witness for C6: issue 42 with labels ["ai-ready"], assistant proposal
"Add input validation." -/
theorem ready_propose_transition_witness :
    (process_issue_run defaultSettings
        ⟨42, "t", "b", ["ai-ready"]⟩
        ⟨"Add input validation.", "I", false, "u", "T"⟩).outcome
        = Outcome.proposalCreated "Add input validation."
      ∧ finalLabels ["ai-ready"]
          (process_issue_run defaultSettings
            ⟨42, "t", "b", ["ai-ready"]⟩
            ⟨"Add input validation.", "I", false, "u", "T"⟩).calls
          = [defaultSettings.proposalLabel] := by
  have h := ready_propose_transition defaultSettings 42 "t" "b" ["ai-ready"]
    ⟨"Add input validation.", "I", false, "u", "T"⟩
    (by decide) (by decide) (by decide) (by decide) (by decide)
  exact ⟨h.1, h.2.2.2.2.2.2.2 rfl⟩

/-- C7: on an issue in state Approved, `process` performs the Implement
action: it creates the branch named by the configured branch name stem plus
the issue number and invokes the assistant; when the working copy reports
changes it commits exactly once with the configured message, pushes the
branch, opens exactly one pull request whose body references the issue, posts
the completion comment containing the PR link, removes the approved label and
returns `implemented` with the PR URL; when no changes are reported it posts
the no-changes comment, removes the approved label, makes no commit and opens
no PR, returning `no_changes`. -/
theorem approved_implement_transition (s : Settings) (n : Nat) (t b : String)
    (labels : List String) (env : Env)
    (ha : s.approvedLabel ∈ labels) (hw : s.workingLabel ∉ labels) :
    (env.hasChanges = true →
      (process_issue_run s ⟨n, t, b, labels⟩ env).outcome
          = Outcome.implemented env.prUrl (s.branchStem ++ Nat.repr n)
        ∧ Call.createBranch (s.branchStem ++ Nat.repr n)
            ∈ (process_issue_run s ⟨n, t, b, labels⟩ env).calls
        ∧ ((process_issue_run s ⟨n, t, b, labels⟩ env).calls.filter isCommit).length = 1
        ∧ Call.commitChanges (commitMessage s n t)
            ∈ (process_issue_run s ⟨n, t, b, labels⟩ env).calls
        ∧ Call.pushBranch (s.branchStem ++ Nat.repr n)
            ∈ (process_issue_run s ⟨n, t, b, labels⟩ env).calls
        ∧ ((process_issue_run s ⟨n, t, b, labels⟩ env).calls.filter isCreatePR).length = 1
        ∧ Call.createPullRequest (prTitle n t) (prBody n env.implementation)
              (s.branchStem ++ Nat.repr n) "main"
            ∈ (process_issue_run s ⟨n, t, b, labels⟩ env).calls
        ∧ (∃ rest, prBody n env.implementation = "Resolves #" ++ (Nat.repr n ++ rest))
        ∧ Call.addComment n (completionComment env.implementation env.prUrl env.now)
            ∈ (process_issue_run s ⟨n, t, b, labels⟩ env).calls
        ∧ (∃ pre post,
            completionComment env.implementation env.prUrl env.now
              = pre ++ (env.prUrl ++ post))
        ∧ Call.removeLabel n s.approvedLabel
            ∈ (process_issue_run s ⟨n, t, b, labels⟩ env).calls)
    ∧ (env.hasChanges = false →
      (process_issue_run s ⟨n, t, b, labels⟩ env).outcome
          = Outcome.noChanges env.implementation
        ∧ Call.addComment n (noChangesComment env.implementation env.now)
            ∈ (process_issue_run s ⟨n, t, b, labels⟩ env).calls
        ∧ Call.removeLabel n s.approvedLabel
            ∈ (process_issue_run s ⟨n, t, b, labels⟩ env).calls
        ∧ ((process_issue_run s ⟨n, t, b, labels⟩ env).calls.filter isCommit).length = 0
        ∧ ((process_issue_run s ⟨n, t, b, labels⟩ env).calls.filter isCreatePR).length = 0) := by
  constructor
  · intro hch
    have hcalls : (process_issue_run s ⟨n, t, b, labels⟩ env).calls
        = [Call.getIssue n, Call.addLabel n s.workingLabel,
           Call.createBranch (s.branchStem ++ Nat.repr n),
           Call.geminiImplement t b "Approved proposal from previous analysis" n,
           Call.hasChanges,
           Call.commitChanges (commitMessage s n t),
           Call.pushBranch (s.branchStem ++ Nat.repr n),
           Call.createPullRequest (prTitle n t) (prBody n env.implementation)
             (s.branchStem ++ Nat.repr n) "main",
           Call.addComment n (completionComment env.implementation env.prUrl env.now),
           Call.removeLabel n s.approvedLabel,
           Call.removeLabel n s.workingLabel] := by
      simp [process_issue_run, dispatch_action, ha, implement_approved_solution,
        hch, process_issue, hw]
    have houtcome : (process_issue_run s ⟨n, t, b, labels⟩ env).outcome
        = Outcome.implemented env.prUrl (s.branchStem ++ Nat.repr n) := by
      simp [process_issue_run, dispatch_action, ha, implement_approved_solution,
        hch, process_issue, hw]
    refine ⟨houtcome, ?_, ?_, ?_, ?_, ?_, ?_,
      prBody_references_issue n env.implementation, ?_,
      completionComment_contains env.implementation env.prUrl env.now, ?_⟩
    · rw [hcalls]; simp
    · rw [hcalls]; simp [isCommit]
    · rw [hcalls]; simp
    · rw [hcalls]; simp
    · rw [hcalls]; simp [isCreatePR]
    · rw [hcalls]; simp
    · rw [hcalls]; simp
    · rw [hcalls]; simp
  · intro hch
    have hcalls : (process_issue_run s ⟨n, t, b, labels⟩ env).calls
        = [Call.getIssue n, Call.addLabel n s.workingLabel,
           Call.createBranch (s.branchStem ++ Nat.repr n),
           Call.geminiImplement t b "Approved proposal from previous analysis" n,
           Call.hasChanges,
           Call.addComment n (noChangesComment env.implementation env.now),
           Call.removeLabel n s.approvedLabel,
           Call.removeLabel n s.workingLabel] := by
      simp [process_issue_run, dispatch_action, ha, implement_approved_solution,
        hch, process_issue, hw]
    have houtcome : (process_issue_run s ⟨n, t, b, labels⟩ env).outcome
        = Outcome.noChanges env.implementation := by
      simp [process_issue_run, dispatch_action, ha, implement_approved_solution,
        hch, process_issue, hw]
    refine ⟨houtcome, ?_, ?_, ?_, ?_⟩
    · rw [hcalls]; simp
    · rw [hcalls]; simp
    · rw [hcalls]; simp [isCommit]
    · rw [hcalls]; simp [isCreatePR]

/-- Witness for C7: issue 42 with labels ["ai-approved"], once with pending
changes (a PR is opened at the reported URL) and once without (no-changes
outcome). -/
theorem approved_implement_transition_witness :
    (process_issue_run defaultSettings ⟨42, "t", "b", ["ai-approved"]⟩
        ⟨"P", "I", true, "http://pr/1", "T"⟩).outcome
        = Outcome.implemented "http://pr/1" (defaultSettings.branchStem ++ Nat.repr 42)
      ∧ (process_issue_run defaultSettings ⟨42, "t", "b", ["ai-approved"]⟩
          ⟨"P", "I", false, "http://pr/1", "T"⟩).outcome
        = Outcome.noChanges "I" := by
  have h1 := approved_implement_transition defaultSettings 42 "t" "b" ["ai-approved"]
    ⟨"P", "I", true, "http://pr/1", "T"⟩ (by decide) (by decide)
  have h2 := approved_implement_transition defaultSettings 42 "t" "b" ["ai-approved"]
    ⟨"P", "I", false, "http://pr/1", "T"⟩ (by decide) (by decide)
  exact ⟨(h1.1 rfl).1, (h2.2 rfl).1⟩

/-- A label stays in the set under any call that is not a removal of that
very label. -/
theorem applyCall_preserves_mem (labels : List String) (c : Call) (x : String)
    (hx : x ∈ labels) (h : ∀ m l, c = Call.removeLabel m l → x ≠ l) :
    x ∈ applyCall labels c := by
  cases c with
  | addLabel m l =>
      simp only [applyCall]
      split
      · exact hx
      · exact List.mem_append_left _ hx
  | removeLabel m l =>
      simp [applyCall, List.mem_filter, hx, h m l rfl]
  | getIssue n => exact hx
  | addComment n t => exact hx
  | createPullRequest a b c d => exact hx
  | createBranch a => exact hx
  | hasChanges => exact hx
  | commitChanges a => exact hx
  | pushBranch a => exact hx
  | geminiAnalyze a b n => exact hx
  | geminiImplement a b c n => exact hx

/-- Adding a label puts it in the set. -/
theorem applyCall_addLabel_self (labels : List String) (m : Nat) (x : String) :
    x ∈ applyCall labels (Call.addLabel m x) := by
  simp only [applyCall]
  split
  · assumption
  · exact List.mem_append_right _ (List.mem_singleton.mpr rfl)

/-! ## C1 — per-issue mutual exclusion -/

/-- Counterexample to C1: there is no process-wide lock.  Two concurrent
dispatches for issue 42 (labels ["ai-ready"]) whose fetches both happen
before either adds the working label (`k = 0`) each perform a full Propose
run: neither outcome is the skip outcome, contradicting "exactly one full
run and N-1 Skipped". -/
theorem concurrent_dispatch_double_run_cex :
    (process_issue_run defaultSettings ⟨42, "t", "b", ["ai-ready"]⟩
        ⟨"PA", "I", false, "u", "T"⟩).outcome = Outcome.proposalCreated "PA"
      ∧ secondDispatchOutcome defaultSettings ⟨42, "t", "b", ["ai-ready"]⟩
          ⟨"PA", "I", false, "u", "T"⟩ ⟨"PB", "I", false, "u", "T"⟩ 0
        = Outcome.proposalCreated "PB"
      ∧ secondDispatchOutcome defaultSettings ⟨42, "t", "b", ["ai-ready"]⟩
          ⟨"PA", "I", false, "u", "T"⟩ ⟨"PB", "I", false, "u", "T"⟩ 0
        ≠ Outcome.alreadyProcessing := by
  refine ⟨by decide, by decide, by decide⟩

/-- C1 as amended: mutual exclusion is label-based, not lock-based.  On the
Propose path, run A performs 7 calls, adding the working label as call 2 and
removing it as call 7; a second dispatch B whose fetch lands after `k` calls
of A with `2 ≤ k ≤ 6` observes the working label and ends as the skip
outcome (only when B's fetch precedes A's label add, or follows A's label
removal, does B run). -/
theorem label_guard_excludes_overlapping_fetch (s : Settings) (n : Nat)
    (t b : String) (labels : List String) (env envB : Env) (k : Nat)
    (hw : s.workingLabel ∉ labels) (ha : s.approvedLabel ∉ labels)
    (hwi : s.workingLabel ≠ s.issueLabel) (h2 : 2 ≤ k) (h6 : k ≤ 6) :
    secondDispatchOutcome s ⟨n, t, b, labels⟩ env envB k
      = Outcome.alreadyProcessing := by
  have hcallsA : (process_issue_run s ⟨n, t, b, labels⟩ env).calls
      = [Call.getIssue n, Call.addLabel n s.workingLabel,
         Call.geminiAnalyze t b n,
         Call.addComment n (proposalComment s n env.proposal env.now),
         Call.addLabel n s.proposalLabel, Call.removeLabel n s.issueLabel,
         Call.removeLabel n s.workingLabel] := by
    simp [process_issue_run, dispatch_action, ha, analyze_and_propose,
      process_issue, hw]
  have hmem : s.workingLabel ∈ interleavedSnapshot s ⟨n, t, b, labels⟩ env k := by
    unfold interleavedSnapshot
    rw [hcallsA]
    have hself : s.workingLabel ∈ applyCall (applyCall labels (Call.getIssue n))
        (Call.addLabel n s.workingLabel) :=
      applyCall_addLabel_self _ n s.workingLabel
    have m3 := applyCall_preserves_mem _ (Call.geminiAnalyze t b n) _ hself
      (by intro m l hc; cases hc)
    have m4 := applyCall_preserves_mem _
      (Call.addComment n (proposalComment s n env.proposal env.now)) _ m3
      (by intro m l hc; cases hc)
    have m5 := applyCall_preserves_mem _ (Call.addLabel n s.proposalLabel) _ m4
      (by intro m l hc; cases hc)
    have m6 := applyCall_preserves_mem _ (Call.removeLabel n s.issueLabel) _ m5
      (by intro m l hc; cases hc; exact hwi)
    interval_cases k
    · exact hself
    · exact m3
    · exact m4
    · exact m5
    · exact m6
  simp [secondDispatchOutcome, process_issue_run, process_issue, hmem]

/-- Witness for the amended C1 at `k = 3` (B fetches between A's label add
and A's proposal comment). -/
theorem label_guard_excludes_overlapping_fetch_witness :
    secondDispatchOutcome defaultSettings ⟨42, "t", "b", ["ai-ready"]⟩
        ⟨"PA", "I", false, "u", "T"⟩ ⟨"PB", "I", false, "u", "T"⟩ 3
      = Outcome.alreadyProcessing :=
  label_guard_excludes_overlapping_fetch defaultSettings 42 "t" "b" ["ai-ready"]
    ⟨"PA", "I", false, "u", "T"⟩ ⟨"PB", "I", false, "u", "T"⟩ 3
    (by decide) (by decide) (by decide) (by decide) (by decide)

/-! ## C2 — dispatch on ProposalPending -/

set_option maxRecDepth 8192 in
/-- Counterexample to C2: after a completed Propose run the label set is
["ai-proposal-pending"]; dispatching `process` again on that state is NOT
skipped — it performs another full Propose run and posts a second proposal
comment. -/
theorem proposal_pending_redispatch_cex :
    finalLabels ["ai-ready"]
        (process_issue_run defaultSettings ⟨42, "t", "b", ["ai-ready"]⟩
          ⟨"P", "I", false, "u", "T"⟩).calls
      = ["ai-proposal-pending"]
      ∧ (process_issue_run defaultSettings ⟨42, "t", "b", ["ai-proposal-pending"]⟩
          ⟨"P2", "I", false, "u", "T2"⟩).outcome = Outcome.proposalCreated "P2"
      ∧ (process_issue_run defaultSettings ⟨42, "t", "b", ["ai-proposal-pending"]⟩
          ⟨"P2", "I", false, "u", "T2"⟩).outcome ≠ Outcome.alreadyProcessing
      ∧ Call.addComment 42 (proposalComment defaultSettings 42 "P2" "T2")
          ∈ (process_issue_run defaultSettings ⟨42, "t", "b", ["ai-proposal-pending"]⟩
              ⟨"P2", "I", false, "u", "T2"⟩).calls := by
  refine ⟨by decide, by decide, by decide, by decide⟩

/-- C2 as amended: the skip guard tests only the working label, so a dispatch
on an issue in state ProposalPending (proposal-pending present, approved and
working absent) re-runs the Propose action: it is not skipped, returns
`proposal_created` again, and posts exactly one new proposal comment. -/
theorem proposal_pending_redispatch_reposts (s : Settings) (n : Nat)
    (t b : String) (labels : List String) (env : Env)
    (hp : s.proposalLabel ∈ labels) (ha : s.approvedLabel ∉ labels)
    (hw : s.workingLabel ∉ labels) :
    (process_issue_run s ⟨n, t, b, labels⟩ env).outcome
        = Outcome.proposalCreated env.proposal
      ∧ (process_issue_run s ⟨n, t, b, labels⟩ env).outcome
          ≠ Outcome.alreadyProcessing
      ∧ Call.addComment n (proposalComment s n env.proposal env.now)
          ∈ (process_issue_run s ⟨n, t, b, labels⟩ env).calls
      ∧ ((process_issue_run s ⟨n, t, b, labels⟩ env).calls.filter isAddComment).length
          = 1 := by
  have hcalls : (process_issue_run s ⟨n, t, b, labels⟩ env).calls
      = [Call.getIssue n, Call.addLabel n s.workingLabel,
         Call.geminiAnalyze t b n,
         Call.addComment n (proposalComment s n env.proposal env.now),
         Call.addLabel n s.proposalLabel, Call.removeLabel n s.issueLabel,
         Call.removeLabel n s.workingLabel] := by
    simp [process_issue_run, dispatch_action, ha, analyze_and_propose,
      process_issue, hw]
  have houtcome : (process_issue_run s ⟨n, t, b, labels⟩ env).outcome
      = Outcome.proposalCreated env.proposal := by
    simp [process_issue_run, dispatch_action, ha, analyze_and_propose,
      process_issue, hw]
  refine ⟨houtcome, ?_, ?_, ?_⟩
  · rw [houtcome]; simp
  · rw [hcalls]; simp
  · rw [hcalls]; simp [isAddComment]

/-- Witness for the amended C2 at issue 42 with labels
["ai-proposal-pending"]. -/
theorem proposal_pending_redispatch_reposts_witness :
    (process_issue_run defaultSettings ⟨42, "t", "b", ["ai-proposal-pending"]⟩
        ⟨"P2", "I", false, "u", "T2"⟩).outcome = Outcome.proposalCreated "P2"
      ∧ (process_issue_run defaultSettings ⟨42, "t", "b", ["ai-proposal-pending"]⟩
          ⟨"P2", "I", false, "u", "T2"⟩).outcome ≠ Outcome.alreadyProcessing :=
  let h := proposal_pending_redispatch_reposts defaultSettings 42 "t" "b"
    ["ai-proposal-pending"] ⟨"P2", "I", false, "u", "T2"⟩
    (by decide) (by decide) (by decide)
  ⟨h.1, h.2.1⟩

/-! ## C3 — skip behaviour for Working and Untracked -/

set_option maxRecDepth 8192 in
/-- Counterexample to C3: an Untracked issue (no marker labels at all) is not
skipped — `process` runs the full Propose action on it, posting a comment;
and in the Working case the run still makes one gateway call (the issue
fetch), not zero. -/
theorem untracked_not_skipped_cex :
    (process_issue_run defaultSettings ⟨42, "t", "b", []⟩
        ⟨"P", "I", false, "u", "T"⟩).outcome = Outcome.proposalCreated "P"
      ∧ (process_issue_run defaultSettings ⟨42, "t", "b", []⟩
          ⟨"P", "I", false, "u", "T"⟩).outcome ≠ Outcome.alreadyProcessing
      ∧ Call.addComment 42 (proposalComment defaultSettings 42 "P" "T")
          ∈ (process_issue_run defaultSettings ⟨42, "t", "b", []⟩
              ⟨"P", "I", false, "u", "T"⟩).calls
      ∧ (process_issue_run defaultSettings ⟨42, "t", "b", ["ai-working"]⟩
          ⟨"P", "I", false, "u", "T"⟩).calls.length = 1 := by
  refine ⟨by decide, by decide, by decide, by decide⟩

/-- C3 as amended: when the working label is present, `process` returns the
skip outcome after exactly one gateway call — the read-only issue fetch — and
the label set is untouched; an issue with no marker labels, however, is not
skipped: `process` treats it like the proposal phase and runs the Propose
action on it. -/
theorem working_skip_single_fetch (s : Settings) (n : Nat) (t b : String)
    (labels untracked : List String) (env : Env)
    (hw : s.workingLabel ∈ labels)
    (hw2 : s.workingLabel ∉ untracked) (ha2 : s.approvedLabel ∉ untracked) :
    process_issue_run s ⟨n, t, b, labels⟩ env
        = { outcome := Outcome.alreadyProcessing, calls := [Call.getIssue n] }
      ∧ finalLabels labels (process_issue_run s ⟨n, t, b, labels⟩ env).calls = labels
      ∧ (process_issue_run s ⟨n, t, b, untracked⟩ env).outcome
          = Outcome.proposalCreated env.proposal := by
  have hrun : process_issue_run s ⟨n, t, b, labels⟩ env
      = { outcome := Outcome.alreadyProcessing, calls := [Call.getIssue n] } := by
    simp [process_issue_run, process_issue, hw]
  refine ⟨hrun, ?_, ?_⟩
  · rw [hrun]
    simp [finalLabels, applyCall]
  · simp [process_issue_run, dispatch_action, ha2, analyze_and_propose,
      process_issue, hw2]

/-- Witness for the amended C3: labels ["ai-working"] yield the skip
outcome with a single fetch; the empty label set yields a Propose run. -/
theorem working_skip_single_fetch_witness :
    process_issue_run defaultSettings ⟨42, "t", "b", ["ai-working"]⟩
        ⟨"P", "I", false, "u", "T"⟩
        = { outcome := Outcome.alreadyProcessing, calls := [Call.getIssue 42] }
      ∧ (process_issue_run defaultSettings ⟨42, "t", "b", []⟩
          ⟨"P", "I", false, "u", "T"⟩).outcome = Outcome.proposalCreated "P" :=
  let h := working_skip_single_fetch defaultSettings 42 "t" "b" ["ai-working"] []
    ⟨"P", "I", false, "u", "T"⟩ (by decide) (by decide) (by decide)
  ⟨h.1, h.2.2⟩

end Sentinel
